import Mathlib

/-!
Verification of the covid19mtl data-refresh pipeline (app/refreshdata.py).

The Python program is shallowly embedded: the filesystem is a map from path
strings to file contents plus a list of recorded backups, Python exceptions
become the error side of an Except value (raising an exception returns no new
state, so the pre-call state is preserved), and the network is a stub giving
the response of each attempt.  Machine-level details that live outside the
repository (the codec tables behind bytes.decode, the csv module) are modelled
by small explicit functions noted in their doc comments.
-/

namespace RefreshData

/-- Byte strings are lists of byte values. -/
abbrev Bytes := List Nat

/-- Contents of a file on disk: either raw bytes written through save_df, or a
csv grid written by the extractor (the csv serialization itself is modelled by
csvEncode below). -/
inductive FileContent where
  | raw (b : Bytes)
  | csv (rows : List (List String))
deriving DecidableEq

/-- Model of Python csv field quoting (default dialect: QUOTE_MINIMAL with
quotechar the double quote): a field is quoted when it contains the delimiter,
the quote character or a line break, doubling embedded quote characters. -/
def csvField (s : String) : String :=
  if s.data.any (fun c => c = ',' || c = '"' || c = '\r' || c = '\n') then
    String.mk ('"' :: (s.data.map (fun c => if c = '"' then ['"', '"'] else [c])).flatten ++ ['"'])
  else s

/-- One csv line: fields joined by commas, terminated by CRLF
(the csv module's default line terminator). -/
def csvLine (r : List String) : String :=
  String.intercalate "," (r.map csvField) ++ "\r\n"

/-- Model of csv.writer.writerows output for a grid of fields. -/
def csvEncode (rows : List (List String)) : String :=
  String.join (rows.map csvLine)

/-- The on-disk byte size of a file, as os.path.getsize reports it. -/
def contentSize : FileContent → Nat
  | .raw b => b.length
  | .csv rows => (csvEncode rows).utf8ByteSize

/-- The data store: current file contents by path, plus the backup siblings
created so far.  A backup sibling name-timestamp.ext is abstracted as the
pair of the original path and the content preserved under the timestamped
name (the UTC timestamp makes each backup name fresh, so backups are never
overwritten; the list records them most recent first). -/
structure FS where
  files : String → Option FileContent
  backups : List (String × FileContent)

/-- Write content to a path (Python open(path, w) followed by write). -/
def fsWrite (fs : FS) (p : String) (c : FileContent) : FS :=
  { fs with files := fun q => if q = p then some c else fs.files q }

/-- backup(filename) from the source: do nothing when the file does not
exist, otherwise hard-link the current content to a date-tagged sibling. -/
def backup (fs : FS) (filename : String) : FS :=
  match fs.files filename with
  | none => fs
  | some c => { fs with backups := (filename, c) :: fs.backups }

/-- save_df(filename, data) from the source: if a file exists and is strictly
larger than the new payload, raise ValueError without touching anything;
otherwise back up any existing file and overwrite it with the payload. -/
def save_df (fs : FS) (filename : String) (data : Bytes) : Except String FS :=
  match fs.files filename with
  | some existing =>
    if contentSize existing > data.length then
      Except.error (filename ++ " is smaller than the cached version we have on disk.")
    else
      Except.ok (fsWrite (backup fs filename) filename (FileContent.raw data))
  | none => Except.ok (fsWrite fs filename (FileContent.raw data))

/-! ### Cell normalizer (norm_cell and the regular expression NUM_PAT) -/

/-- The character class inside NUM_PAT: a digit, a space or a comma. -/
def numChar (c : Char) : Bool := c.isDigit || c = ' ' || c = ','

/-- Python str whitespace (the ASCII whitespace characters recognised by
str.split and str.strip). -/
def pyIsSpace (c : Char) : Bool :=
  c = ' ' || c = '\t' || c = '\n' || c = '\r' || c = '\x0b' || c = '\x0c'

/-- Group 1 of NUM_PAT, anchored at the start of the text as re.match does:
an optional leading asterisk followed by one or more characters of the
digit/space/comma class; the group is the greedy run of class characters.
Returns none when the pattern does not match at position 0. -/
def numGroup : List Char → Option (List Char)
  | [] => none
  | '*' :: rest =>
    match rest with
    | [] => none
    | c :: _ => if numChar c then some (rest.takeWhile numChar) else none
  | c :: rest => if numChar c then some (c :: rest.takeWhile numChar) else none

/-- Python str.strip(): drop leading and trailing whitespace. -/
def pyStrip (l : List Char) : List Char :=
  ((l.dropWhile pyIsSpace).reverse.dropWhile pyIsSpace).reverse

/-- Worker for the model of Python str.split(): walk the characters while
accumulating the current word in reverse, emitting it when whitespace or the
end of the text is reached. -/
def pyWordsGo : List Char → List Char → List (List Char)
  | [], cur => if cur.isEmpty then [] else [cur.reverse]
  | c :: cs, cur =>
    if pyIsSpace c then
      if cur.isEmpty then pyWordsGo cs [] else cur.reverse :: pyWordsGo cs []
    else pyWordsGo cs (c :: cur)

/-- Python str.split() with no argument: the maximal runs of
non-whitespace characters, in order. -/
def pyWords (l : List Char) : List (List Char) := pyWordsGo l []

/-- A single space joined between words (the join in norm_cell). -/
def joinSp : List (List Char) → List Char
  | [] => []
  | [w] => w
  | w :: ws => w ++ ' ' :: joinSp ws

/-- The whitespace-normalization step of norm_cell:
join(text.split()) with a single space. -/
def collapse (l : List Char) : List Char := joinSp (pyWords l)

/-- The numeric branch of norm_cell: when NUM_PAT matches, the text becomes
group 1 stripped of surrounding whitespace, with commas replaced by decimal
points and spaces removed; otherwise the text is unchanged. -/
def normPre (l : List Char) : List Char :=
  match numGroup l with
  | some g => ((pyStrip g).map (fun c => if c = ',' then '.' else c)).filter (fun c => c ≠ ' ')
  | none => l

/-- norm_cell(text) from the source: the numeric branch followed by
whitespace collapsing. -/
def norm_cell (text : String) : String :=
  String.mk (collapse (normPre text.data))

/-! ### Remote fetcher (fetch and normalize_encoding) -/

/-- The retry budget NB_RETRIES from the source. -/
def NB_RETRIES : Nat := 3

/-- An HTTP response as the code observes it: status code, the Content-Type
header when present, and the body bytes. -/
structure Resp where
  status_code : Nat
  contentType : Option String
  content : Bytes
deriving DecidableEq

/-- A word character of the regular expression CHARSET_PAT, or the hyphen
also allowed by its group. -/
def charsetChar (c : Char) : Bool := c.isAlphanum || c = '_' || c = '-'

/-- CHARSET_PAT.search on a header value: scan for the first position where
the literal text charset= is followed by at least one word-or-hyphen
character, and return that greedy run of characters (group 1). -/
def charsetSearch : List Char → Option (List Char)
  | [] => none
  | c :: rest =>
    if ("charset=".data).isPrefixOf (c :: rest) then
      let g := ((c :: rest).drop 8).takeWhile charsetChar
      if g.isEmpty then charsetSearch rest else some g
    else charsetSearch rest

/-- Model of the byte-level effect of Python bytes.decode(encoding) followed
by str.encode(utf-8).  The codec tables live outside the repository; for
utf-8 input the round trip is the identity on the bytes, and no claim in
this development depends on the transcoding of any other charset, so the
function is modelled as the identity on the payload. -/
def transcodeUtf8 (encoding : String) (data : Bytes) : Bytes :=
  let _ := encoding
  data

/-- normalize_encoding(data, content_type) from the source: the encoding
defaults to utf-8, is overridden by a charset declared in the Content-Type
header, and the body is decoded then re-encoded as utf-8. -/
def normalize_encoding (data : Bytes) (contentType : Option String) : Bytes :=
  let encoding :=
    match contentType with
    | some ct =>
      match charsetSearch ct.data with
      | some g => String.mk g
      | none => "utf-8"
    | none => "utf-8"
  transcodeUtf8 encoding data

/-- The body of fetch(url) with the network stubbed: attempt i issues the
GET request (stub i).  The source then has the statement
if resp.status_code != 200: next -- where next is a bare name, an expression
evaluated and discarded, not a loop continuation -- so control always falls
through to the return statement; the translation therefore has no recursive
call, and the final raise of the loop is reachable only when the retry
budget is zero.  The result is paired with the number of attempts issued. -/
def fetchGo (url : String) (stub : Nat → Resp) (i : Nat) :
    Except String Bytes × Nat :=
  if i < NB_RETRIES then
    let resp := stub i
    let _ := resp.status_code ≠ 200
    let ctype := resp.contentType
    (Except.ok (normalize_encoding resp.content ctype), i + 1)
  else
    (Except.error ("Failed to retrieve " ++ url), i)

/-- fetch(url) from the source, over a stub of per-attempt responses. -/
def fetch (url : String) (stub : Nat → Resp) : Except String Bytes :=
  (fetchGo url stub 0).1

/-- The number of attempts fetch makes against the stub. -/
def fetchAttempts (url : String) (stub : Nat → Resp) : Nat :=
  (fetchGo url stub 0).2

/-! ### HTML table extractor (parse_data_mtl) -/

/-- A table element of the parsed document, as the extractor inspects it:
whether its class attribute carries contenttable, whether it contains a td
with the informational background color, whether it contains a p or h4
element, and the text of the th and td cells of each tr row in document
order.  BeautifulSoup parsing of the page bytes is modelled as this
structured form of the document. -/
structure HtmlTable where
  isContenttable : Bool
  hasInfoBgTd : Bool
  hasP : Bool
  hasH4 : Bool
  rows : List (List String)
deriving DecidableEq

/-- The expected number of data tables. -/
def nb_tables : Nat := 4

/-- The output filenames, one per expected table, in document order. -/
def file_names : List String :=
  ["mtl_ciusss.csv", "mtl_borough.csv", "mtl_ages.csv", "mtl_gender.csv"]

/-- The table selection and filtering of parse_data_mtl: select the tables
with class contenttable, then skip a table containing an informational
background-color cell, and skip a table containing a p or h4 element. -/
def dataTables (doc : List HtmlTable) : List HtmlTable :=
  (doc.filter (fun t => t.isContenttable)).filter
    (fun t => !t.hasInfoBgTd && !(t.hasP || t.hasH4))

/-- The rows of one table with every cell passed through norm_cell. -/
def normTable (t : HtmlTable) : List (List String) :=
  t.rows.map (fun r => r.map norm_cell)

/-- os.path.join(data_dir, processed, filename). -/
def processedPath (dataDir fname : String) : String :=
  dataDir ++ "/processed/" ++ fname

/-- os.path.join(data_dir, sources, filename). -/
def sourcesPath (dataDir fname : String) : String :=
  dataDir ++ "/sources/" ++ fname

/-- The write loop of parse_data_mtl: for each (filename, table) pair, in
order, back up the processed file then overwrite it with the csv of the
normalized rows.  Note the loop writes directly (backup then open-and-write)
and does not go through save_df. -/
def writeTables (fs : FS) (dataDir : String)
    (pairs : List (String × HtmlTable)) : FS :=
  pairs.foldl
    (fun fs pr =>
      let fq := processedPath dataDir pr.1
      fsWrite (backup fs fq) fq (FileContent.csv (normTable pr.2)))
    fs

/-- parse_data_mtl(data_dir) from the source, over the parsed document:
filter the tables, raise ValueError when the count differs from nb_tables
(before anything is written), and otherwise write the tables zipped with
their filenames. -/
def parse_data_mtl (fs : FS) (dataDir : String) (doc : List HtmlTable) :
    Except String FS :=
  if (dataTables doc).length ≠ nb_tables then
    Except.error ("data_mtl.html changed! We found " ++
      toString (dataTables doc).length ++ " data tables rather than " ++
      toString nb_tables ++ ".")
  else
    Except.ok (writeTables fs dataDir (file_names.zip (dataTables doc)))

/-! ### Run lock (lock) -/

/-- The state of the lock token scraper.pid: whether the file exists, its
current text content, and the holder of the advisory exclusive flock on it
(none when unlocked).  flock locks attach to the open descriptor and are
released when the holding process exits. -/
structure LockWorld where
  lockFileExists : Bool
  lockContent : String
  holder : Option Nat
deriving DecidableEq

/-- The CPython string form of the built-in function object os.getpid,
which is what the format call in the source interpolates, because the
function is referenced without calling it. -/
def os_getpid_repr : String := "<built-in function getpid>"

/-- lock(lock_dir) from the source: create the lock file empty when absent,
open it and request a non-blocking exclusive flock -- which raises
BlockingIOError at once when any open handle already holds the lock -- and
on success truncate the file and write the string form of os.getpid into
it.  The pid argument identifies the acquiring process. -/
def lock (pid : Nat) (w : LockWorld) : Except String LockWorld :=
  let w1 :=
    if w.lockFileExists then w
    else { w with lockFileExists := true, lockContent := "" }
  match w1.holder with
  | some _ => Except.error "BlockingIOError: lock held"
  | none =>
    Except.ok { w1 with holder := some pid, lockContent := os_getpid_repr }

/-- Release of the flock: the holding handle is closed (process exit). -/
def releaseLock (w : LockWorld) : LockWorld := { w with holder := none }

/-! ### Pipeline orchestrator (main) -/

/-- The SOURCES registry from the source file, in insertion order. -/
def SOURCES : List (String × String) :=
  [("data_mtl.html", "https://santemontreal.qc.ca/population/coronavirus-covid-19/"),
   ("data_qc.csv", "https://www.inspq.qc.ca/sites/default/files/covid/donnees/combine.csv"),
   ("data_qc_case_by_network.csv", "https://www.inspq.qc.ca/sites/default/files/covid/donnees/tableau-rls.csv"),
   ("data_qc_death_loc_by_reg.csv", "https://www.inspq.qc.ca/sites/default/files/covid/donnees/tableau-rpa.csv")]

/-- The fetch-and-save loop of main: for each registry entry, fetch the url
and save the payload under sources/.  The source wraps neither call in a
try block, so an exception propagates and aborts the loop. -/
def sourcesLoop (fs : FS) (dataDir : String)
    (stubs : String → Nat → Resp) : Except String FS :=
  SOURCES.foldlM
    (fun fs fu => do
      let data ← fetch fu.2 (stubs fu.2)
      save_df fs (sourcesPath dataDir fu.1) data)
    fs

/-- main() from the source, after argument parsing: acquire the lock, run
the fetch-and-save loop unless local mode is set, then run the extractor.
Every exception propagates (there is no handler in main), so any error
aborts the run at the point it is raised. -/
def mainRun (w : LockWorld) (pid : Nat) (fs : FS) (dataDir : String)
    (localOnly : Bool) (stubs : String → Nat → Resp)
    (doc : List HtmlTable) : Except String (LockWorld × FS) := do
  let w ← lock pid w
  let fs ← if localOnly then Except.ok fs else sourcesLoop fs dataDir stubs
  let fs ← parse_data_mtl fs dataDir doc
  Except.ok (w, fs)

/-! ### Concrete inputs used by the witnesses and counterexamples -/

/-- An empty data store: nothing on disk, no backups recorded. -/
def emptyFS : FS := { files := fun _ => none, backups := [] }

/-- A plain data table for test documents: contenttable class, no
informational markers, a single one-cell row. -/
def dtEx : HtmlTable :=
  { isContenttable := true, hasInfoBgTd := false, hasP := false,
    hasH4 := false, rows := [["1"]] }

/-- A stub network whose first two attempts fail with status 500 and whose
third attempt succeeds with a different payload. -/
def stubFailTwice : Nat → Resp := fun i =>
  if i < 2 then { status_code := 500, contentType := none, content := [70, 65, 73, 76] }
  else { status_code := 200, contentType := none, content := [79, 75] }

/-- A stub network on which every attempt fails with status 500. -/
def stubAlwaysFail : Nat → Resp :=
  fun _ => { status_code := 500, contentType := none, content := [70, 65, 73, 76] }

end RefreshData

namespace RefreshData

/-! ### Helper lemmas -/

lemma string_data_inj {a b : String} (h : a.data = b.data) : a = b := by
  cases a; cases b; exact congrArg String.mk h

lemma string_append_left_cancel {p a b : String} (h : p ++ a = p ++ b) :
    a = b := by
  apply string_data_inj
  have hd := congrArg String.data h
  simp only [String.data_append] at hd
  exact List.append_cancel_left hd

lemma processedPath_ne (dir : String) {a b : String} (h : a ≠ b) :
    processedPath dir a ≠ processedPath dir b := by
  intro hc
  exact h (string_append_left_cancel hc)

lemma backup_files (fs : FS) (p : String) : (backup fs p).files = fs.files := by
  unfold backup
  split <;> rfl

lemma fsWrite_backups (fs : FS) (p : String) (c : FileContent) :
    (fsWrite fs p c).backups = fs.backups := rfl

lemma backup_backups_mem (fs : FS) (p : String) {x : String × FileContent}
    (h : x ∈ fs.backups) : x ∈ (backup fs p).backups := by
  unfold backup
  split
  · exact h
  · exact List.mem_cons_of_mem _ h

lemma backup_backups_self (fs : FS) (p : String) {c : FileContent}
    (h : fs.files p = some c) : (p, c) ∈ (backup fs p).backups := by
  unfold backup
  split
  · simp_all
  · rename_i c2 h2
    rw [h2] at h
    cases h
    exact List.mem_cons_self _ _

lemma save_df_ok_files {fs fs1 : FS} {p : String} {d : Bytes}
    (h : save_df fs p d = Except.ok fs1) :
    fs1.files p = some (FileContent.raw d) := by
  unfold save_df at h
  split at h
  · split at h
    · cases h
    · cases h
      simp [fsWrite]
  · cases h
    simp [fsWrite]

/-! ### C2: shrinking payloads are rejected without touching the store -/

/-- Claim C2.  After save_df succeeds on payload b1, a save of a strictly
shorter payload b2 at the same path raises the ValueError carrying the
StaleOrSuspiciousWrite message, while the file still contains exactly b1.
The raise happens in the branch before backup or write is reached, and an
error in this embedding carries no new state, so the store fs1 (including
its backup list) is untouched by the failed call. -/
theorem save_df_shrinking_rejected :
    ∀ (fs fs1 : FS) (p : String) (b1 b2 : Bytes),
      save_df fs p b1 = Except.ok fs1 → b2.length < b1.length →
      fs1.files p = some (FileContent.raw b1) ∧
      save_df fs1 p b2 =
        Except.error (p ++ " is smaller than the cached version we have on disk.") := by
  intro fs fs1 p b1 b2 h1 h2
  have hf := save_df_ok_files h1
  refine ⟨hf, ?_⟩
  unfold save_df
  rw [hf]
  simp only [contentSize]
  rw [if_pos h2]

/-- Witness for C2 at a concrete store and payloads. -/
theorem save_df_shrinking_rejected_wit :
    save_df emptyFS "data/sources/f.csv" [1, 2] =
      Except.ok (fsWrite emptyFS "data/sources/f.csv" (FileContent.raw [1, 2])) ∧
    ([9] : Bytes).length < ([1, 2] : Bytes).length ∧
    ((fsWrite emptyFS "data/sources/f.csv" (FileContent.raw [1, 2])).files
        "data/sources/f.csv" = some (FileContent.raw [1, 2]) ∧
      save_df (fsWrite emptyFS "data/sources/f.csv" (FileContent.raw [1, 2]))
          "data/sources/f.csv" [9] =
        Except.error
          ("data/sources/f.csv is smaller than the cached version we have on disk.")) :=
  ⟨rfl, by decide,
    save_df_shrinking_rejected emptyFS _ "data/sources/f.csv" [1, 2] [9] rfl (by decide)⟩

/-! ### C8: saving to a fresh path always succeeds -/

/-- Claim C8.  When no file exists at the path, save_df succeeds, creates no
backup, and afterwards the file contains exactly the payload. -/
theorem save_df_fresh_path :
    ∀ (fs : FS) (p : String) (d : Bytes), fs.files p = none →
      ∃ fs', save_df fs p d = Except.ok fs' ∧
        fs'.files p = some (FileContent.raw d) ∧
        fs'.backups = fs.backups := by
  intro fs p d h
  refine ⟨fsWrite fs p (FileContent.raw d), ?_, ?_, rfl⟩
  · unfold save_df
    rw [h]
  · simp [fsWrite]

/-- Witness for C8 at a concrete store and payload. -/
theorem save_df_fresh_path_wit :
    emptyFS.files "data/sources/g.csv" = none ∧
    ∃ fs', save_df emptyFS "data/sources/g.csv" [7] = Except.ok fs' ∧
      fs'.files "data/sources/g.csv" = some (FileContent.raw [7]) ∧
      fs'.backups = emptyFS.backups :=
  ⟨rfl, save_df_fresh_path emptyFS "data/sources/g.csv" [7] rfl⟩

/-! ### C6: the concrete values of the cell normalizer -/

/-- Claim C6 is a code bug.  The first two expected values hold, but the
third does not: the character class of NUM_PAT contains the space, so
re.match succeeds on a label cell that begins with spaces, group 1 is that
run of spaces, and stripping it leaves the empty string -- the cell content
is destroyed rather than merely whitespace-collapsed, contradicting the
docstring of norm_cell, which promises text labels stripped only of their
formatting. -/
theorem norm_cell_values :
    norm_cell "1 234,5" = "1234.5" ∧
    norm_cell "*42" = "42" ∧
    norm_cell "  a   b\n c " = "" ∧
    norm_cell "  a   b\n c " ≠ "a b c" := by
  refine ⟨by decide, by decide, by decide, by decide⟩

/-! ### C5: the cell normalizer is not idempotent -/

/-- Counterexample to claim C5 as stated: normalizing the already-normalized
numeric cell 1234.5 truncates it at the decimal point, because NUM_PAT
matches the digit run before the point, so a second normalization changes
the value. -/
theorem norm_cell_not_idempotent_cex :
    norm_cell (norm_cell "1 234,5") ≠ norm_cell "1 234,5" := by
  decide

/-! ### C3: the retry loop never retries -/

/-- Claim C3 is a code bug.  The docstring of fetch announces retrying, and
the spec describes a budget of 3 attempts that skips failed attempts, but
the statement meant as a loop continuation is the bare name next -- an
expression that is evaluated and discarded -- so the first attempt always
reaches the return: on a stub that fails twice and then succeeds, fetch
returns the failed first payload after exactly one attempt instead of the
successful third payload; on a stub that always fails, fetch still returns
the failed payload after one attempt and never raises. -/
theorem fetch_no_retry_bug :
    fetch "u" stubFailTwice = Except.ok [70, 65, 73, 76] ∧
    fetchAttempts "u" stubFailTwice = 1 ∧
    fetch "u" stubFailTwice ≠ Except.ok [79, 75] ∧
    fetch "u" stubAlwaysFail = Except.ok [70, 65, 73, 76] ∧
    fetchAttempts "u" stubAlwaysFail = 1 := by
  refine ⟨rfl, rfl, ?_, rfl, rfl⟩
  intro h
  exact absurd (Except.ok.inj h) (by decide)

/-! ### C9: mutual exclusion of the run lock -/

lemma lock_ok_iff {pid : Nat} {w w2 : LockWorld} :
    lock pid w = Except.ok w2 ↔
      w.holder = none ∧
      w2 = { lockFileExists := true, lockContent := os_getpid_repr,
             holder := some pid } := by
  unfold lock
  by_cases hw : w.lockFileExists <;>
    cases hh : w.holder <;>
      simp [hw, hh, LockWorld.mk.injEq, eq_comm]

lemma lock_held {pid : Nat} {w : LockWorld} {q : Nat} (h : w.holder = some q) :
    lock pid w = Except.error "BlockingIOError: lock held" := by
  unfold lock
  by_cases hw : w.lockFileExists <;> simp [hw, h]

/-- Claim C9.  While the first acquisition's handle remains open, a second
acquisition attempt on the same lock file fails at once with the
non-blocking flock error; once the first handle is released, a fresh
acquisition succeeds. -/
theorem lock_mutual_exclusion :
    ∀ (w : LockWorld) (pid1 pid2 : Nat) (w1 : LockWorld),
      lock pid1 w = Except.ok w1 →
      lock pid2 w1 = Except.error "BlockingIOError: lock held" ∧
      ∃ w2, lock pid2 (releaseLock w1) = Except.ok w2 := by
  intro w pid1 pid2 w1 h
  obtain ⟨-, hw1⟩ := lock_ok_iff.mp h
  subst hw1
  constructor
  · exact lock_held rfl
  · exact ⟨_, lock_ok_iff.mpr ⟨rfl, rfl⟩⟩

/-- The world reached after a successful first acquisition by process 11. -/
def lockedW11 : LockWorld :=
  { lockFileExists := true, lockContent := os_getpid_repr, holder := some 11 }

/-- Witness for C9 at a concrete world. -/
theorem lock_mutual_exclusion_wit :
    lock 11 { lockFileExists := false, lockContent := "", holder := none } =
      Except.ok lockedW11 ∧
    (lock 12 lockedW11 = Except.error "BlockingIOError: lock held" ∧
      ∃ w2, lock 12 (releaseLock lockedW11) = Except.ok w2) :=
  ⟨rfl, lock_mutual_exclusion { lockFileExists := false, lockContent := "", holder := none } 11 12 lockedW11 rfl⟩

/-! ### C10: the lock file records the repr of os.getpid, not a pid -/

lemma digitChar_isDigit {n : Nat} (h : n < 10) :
    (Nat.digitChar n).isDigit = true := by
  interval_cases n <;> decide

lemma toDigitsCore_digits :
    ∀ (fuel n : Nat) (ds : List Char), (∀ c ∈ ds, c.isDigit = true) →
      ∀ c ∈ Nat.toDigitsCore 10 fuel n ds, c.isDigit = true := by
  intro fuel
  induction fuel with
  | zero => intro n ds hds; simpa [Nat.toDigitsCore] using hds
  | succ f ih =>
    intro n ds hds c hc
    simp only [Nat.toDigitsCore] at hc
    by_cases h0 : n / 10 = 0
    · rw [if_pos h0] at hc
      rcases List.mem_cons.mp hc with h | h
      · subst h
        exact digitChar_isDigit (Nat.mod_lt _ (by omega))
      · exact hds _ h
    · rw [if_neg h0] at hc
      refine ih _ _ ?_ c hc
      intro d hd
      rcases List.mem_cons.mp hd with h | h
      · subst h
        exact digitChar_isDigit (Nat.mod_lt _ (by omega))
      · exact hds _ h

lemma toString_nat_all_digits (q : Nat) :
    ∀ c ∈ (toString q).data, c.isDigit = true := by
  have hd : (toString q).data = Nat.toDigitsCore 10 (q + 1) q [] := rfl
  rw [hd]
  exact toDigitsCore_digits (q + 1) q [] (by intro c hc; cases hc)

/-- Claim C10.  A successful acquisition truncates the lock file and writes
the textual form of the function object os.getpid -- the format call
interpolates the function itself, never calling it -- so the content is a
constant independent of the holding process, and in particular is not the
decimal representation of any process id. -/
theorem lock_writes_getpid_repr :
    ∀ (w : LockWorld) (pid : Nat) (w2 : LockWorld),
      lock pid w = Except.ok w2 →
      w2.lockContent = os_getpid_repr ∧ ∀ q : Nat, w2.lockContent ≠ toString q := by
  intro w pid w2 h
  obtain ⟨-, hw2⟩ := lock_ok_iff.mp h
  subst hw2
  refine ⟨rfl, ?_⟩
  intro q heq
  have hlt := toString_nat_all_digits q
  rw [← heq] at hlt
  have hmem : '<' ∈ os_getpid_repr.data := by decide
  have habs : ('<' : Char).isDigit = true := hlt '<' hmem
  exact absurd habs (by decide)

/-- The world reached after a successful acquisition by process 42. -/
def lockedW42 : LockWorld :=
  { lockFileExists := true, lockContent := os_getpid_repr, holder := some 42 }

/-- Witness for C10 at a concrete world and pid. -/
theorem lock_writes_getpid_repr_wit :
    lock 42 { lockFileExists := true, lockContent := "x", holder := none } =
      Except.ok lockedW42 ∧
    (lockedW42.lockContent = os_getpid_repr ∧
      ∀ q : Nat, lockedW42.lockContent ≠ toString q) :=
  ⟨rfl, lock_writes_getpid_repr { lockFileExists := true, lockContent := "x", holder := none } 42 lockedW42 rfl⟩

/-! ### C5 amended: idempotence away from the numeric pattern -/

lemma pyWordsGo_nil (cur : List Char) :
    pyWordsGo [] cur = if cur.isEmpty then [] else [cur.reverse] := rfl

lemma pyWordsGo_cons (c : Char) (cs cur : List Char) :
    pyWordsGo (c :: cs) cur =
      if pyIsSpace c then
        if cur.isEmpty then pyWordsGo cs [] else cur.reverse :: pyWordsGo cs []
      else pyWordsGo cs (c :: cur) := rfl

lemma pyWordsGo_wf :
    ∀ (l cur : List Char), (∀ c ∈ cur, pyIsSpace c = false) →
      ∀ w ∈ pyWordsGo l cur, w ≠ [] ∧ ∀ c ∈ w, pyIsSpace c = false := by
  intro l
  induction l with
  | nil =>
    intro cur hcur w hw
    unfold pyWordsGo at hw
    by_cases hc : cur.isEmpty
    · rw [if_pos hc] at hw
      cases hw
    · rw [if_neg hc] at hw
      rcases List.mem_singleton.mp hw with rfl
      refine ⟨?_, ?_⟩
      · simpa [List.isEmpty_iff] using hc
      · intro c hcm
        exact hcur c (List.mem_reverse.mp hcm)
  | cons a as ih =>
    intro cur hcur w hw
    unfold pyWordsGo at hw
    by_cases ha : pyIsSpace a
    · rw [if_pos ha] at hw
      by_cases hc : cur.isEmpty
      · rw [if_pos hc] at hw
        exact ih [] (by intro c hcm; cases hcm) w hw
      · rw [if_neg hc] at hw
        rcases List.mem_cons.mp hw with rfl | hw2
        · refine ⟨?_, ?_⟩
          · simpa [List.isEmpty_iff] using hc
          · intro c hcm
            exact hcur c (List.mem_reverse.mp hcm)
        · exact ih [] (by intro c hcm; cases hcm) w hw2
    · rw [if_neg ha] at hw
      refine ih (a :: cur) ?_ w hw
      intro c hcm
      rcases List.mem_cons.mp hcm with rfl | hcm2
      · exact Bool.not_eq_true _ ▸ eq_false_of_ne_true ha
      · exact hcur c hcm2

lemma pyWordsGo_append_word :
    ∀ (w l cur : List Char), (∀ c ∈ w, pyIsSpace c = false) →
      pyWordsGo (w ++ l) cur = pyWordsGo l (w.reverse ++ cur) := by
  intro w
  induction w with
  | nil => intro l cur _; rfl
  | cons a as ih =>
    intro l cur hw
    have ha : pyIsSpace a = false := hw a (List.mem_cons_self _ _)
    show pyWordsGo (a :: (as ++ l)) cur = pyWordsGo l ((a :: as).reverse ++ cur)
    rw [pyWordsGo_cons]
    rw [if_neg (by simp [ha])]
    rw [ih l (a :: cur) (fun c hc => hw c (List.mem_cons_of_mem _ hc))]
    rw [List.reverse_cons, List.append_assoc, List.singleton_append]

lemma pyWords_word (w : List Char) (hne : w ≠ [])
    (hw : ∀ c ∈ w, pyIsSpace c = false) : pyWords w = [w] := by
  unfold pyWords
  rw [show w = w ++ [] from (List.append_nil w).symm]
  rw [pyWordsGo_append_word w [] [] hw]
  unfold pyWordsGo
  rw [List.append_nil]
  rw [if_neg (by simpa [List.isEmpty_iff] using hne)]
  rw [List.reverse_reverse]
  rw [List.append_nil w]

lemma pyWords_word_append (w t : List Char) (hne : w ≠ [])
    (hw : ∀ c ∈ w, pyIsSpace c = false) :
    pyWords (w ++ ' ' :: t) = w :: pyWords t := by
  unfold pyWords
  rw [pyWordsGo_append_word w (' ' :: t) [] hw]
  rw [List.append_nil]
  rw [pyWordsGo_cons]
  rw [if_pos (show pyIsSpace ' ' = true from rfl)]
  rw [if_neg (show ¬(w.reverse.isEmpty = true) from by
    simpa [List.isEmpty_iff, List.reverse_eq_nil_iff] using hne)]
  rw [List.reverse_reverse]

lemma pyWords_joinSp :
    ∀ ws : List (List Char),
      (∀ w ∈ ws, w ≠ [] ∧ ∀ c ∈ w, pyIsSpace c = false) →
      pyWords (joinSp ws) = ws := by
  intro ws
  induction ws with
  | nil => intro _; rfl
  | cons w vs ih =>
    intro h
    obtain ⟨hne, hw⟩ := h w (List.mem_cons_self _ _)
    cases vs with
    | nil => exact pyWords_word w hne hw
    | cons v vs2 =>
      show pyWords (w ++ ' ' :: joinSp (v :: vs2)) = _
      rw [pyWords_word_append w _ hne hw]
      rw [ih (fun u hu => h u (List.mem_cons_of_mem _ hu))]

lemma collapse_idem (l : List Char) : collapse (collapse l) = collapse l := by
  unfold collapse
  rw [pyWords_joinSp (pyWords l) (pyWordsGo_wf l [] (by intro c hc; cases hc))]

lemma normPre_of_none {l : List Char} (h : numGroup l = none) :
    normPre l = l := by
  unfold normPre
  rw [h]

/-- Amended claim C5.  On every string whose normalized form is not matched
by the numeric pattern NUM_PAT, the normalizer is idempotent: the second
pass skips the numeric branch and whitespace collapsing is idempotent.  (As
stated over all strings the claim fails; see the counterexample.) -/
theorem norm_cell_idempotent_on_nonnumeric :
    ∀ s : String, numGroup (norm_cell s).data = none →
      norm_cell (norm_cell s) = norm_cell s := by
  intro s h
  show String.mk (collapse (normPre (norm_cell s).data)) = norm_cell s
  rw [normPre_of_none h]
  show String.mk (collapse (collapse (normPre s.data))) = norm_cell s
  rw [collapse_idem]
  rfl

/-- Witness for the amended C5 at a concrete label cell. -/
theorem norm_cell_idempotent_on_nonnumeric_wit :
    numGroup (norm_cell "a   b c").data = none ∧
    norm_cell (norm_cell "a   b c") = norm_cell "a   b c" :=
  ⟨by decide, norm_cell_idempotent_on_nonnumeric "a   b c" (by decide)⟩

/-! ### Shared facts about the extractor write loop -/

lemma fsWrite_files (fs : FS) (p : String) (c : FileContent) (q : String) :
    (fsWrite fs p c).files q = if q = p then some c else fs.files q := rfl

lemma parse_data_mtl_ok (fs : FS) (dir : String) (doc : List HtmlTable)
    (t1 t2 t3 t4 : HtmlTable) (h : dataTables doc = [t1, t2, t3, t4]) :
    parse_data_mtl fs dir doc =
      Except.ok (writeTables fs dir (file_names.zip [t1, t2, t3, t4])) := by
  unfold parse_data_mtl
  rw [h]
  rfl

lemma writeTables4_files (fs : FS) (dir : String) (t1 t2 t3 t4 : HtmlTable) :
    (writeTables fs dir (file_names.zip [t1, t2, t3, t4])).files
        (processedPath dir "mtl_ciusss.csv") =
      some (FileContent.csv (normTable t1)) ∧
    (writeTables fs dir (file_names.zip [t1, t2, t3, t4])).files
        (processedPath dir "mtl_borough.csv") =
      some (FileContent.csv (normTable t2)) ∧
    (writeTables fs dir (file_names.zip [t1, t2, t3, t4])).files
        (processedPath dir "mtl_ages.csv") =
      some (FileContent.csv (normTable t3)) ∧
    (writeTables fs dir (file_names.zip [t1, t2, t3, t4])).files
        (processedPath dir "mtl_gender.csv") =
      some (FileContent.csv (normTable t4)) := by
  have h12 : processedPath dir "mtl_ciusss.csv" ≠ processedPath dir "mtl_borough.csv" :=
    processedPath_ne dir (by decide)
  have h13 : processedPath dir "mtl_ciusss.csv" ≠ processedPath dir "mtl_ages.csv" :=
    processedPath_ne dir (by decide)
  have h14 : processedPath dir "mtl_ciusss.csv" ≠ processedPath dir "mtl_gender.csv" :=
    processedPath_ne dir (by decide)
  have h23 : processedPath dir "mtl_borough.csv" ≠ processedPath dir "mtl_ages.csv" :=
    processedPath_ne dir (by decide)
  have h24 : processedPath dir "mtl_borough.csv" ≠ processedPath dir "mtl_gender.csv" :=
    processedPath_ne dir (by decide)
  have h34 : processedPath dir "mtl_ages.csv" ≠ processedPath dir "mtl_gender.csv" :=
    processedPath_ne dir (by decide)
  refine ⟨?_, ?_, ?_, ?_⟩ <;>
    simp only [writeTables, file_names, List.zip_cons_cons, List.zip_nil_right,
      List.foldl_cons, List.foldl_nil, fsWrite_files, backup_files] <;>
    simp [if_neg h12, if_neg h13, if_neg h14, if_neg h23, if_neg h24, if_neg h34,
      if_neg (Ne.symm h12), if_neg (Ne.symm h13), if_neg (Ne.symm h14),
      if_neg (Ne.symm h23), if_neg (Ne.symm h24), if_neg (Ne.symm h34)]

lemma writeTables_backups_mono :
    ∀ (pairs : List (String × HtmlTable)) (fs : FS) (dir : String)
      {x : String × FileContent},
      x ∈ fs.backups → x ∈ (writeTables fs dir pairs).backups := by
  intro pairs
  induction pairs with
  | nil => intro fs dir x hx; exact hx
  | cons pr rest ih =>
    intro fs dir x hx
    show x ∈ (writeTables
      (fsWrite (backup fs (processedPath dir pr.1)) (processedPath dir pr.1)
        (FileContent.csv (normTable pr.2))) dir rest).backups
    refine ih _ dir ?_
    rw [fsWrite_backups]
    exact backup_backups_mem fs _ hx

/-! ### C1: the schema gate of the extractor -/

/-- Claim C1.  When the selection and filtering yields exactly 4 qualifying
data tables, extraction succeeds and the four processed files hold the
normalized rows of the four tables in document order; when the count is
anything else, extraction raises the ValueError carrying the SchemaMismatch
message -- the raise sits before the write loop, and an error in this
embedding carries no state, so no processed file is created or modified. -/
theorem parse_data_mtl_schema_gate :
    ∀ (fs : FS) (dir : String) (doc : List HtmlTable),
      (∀ t1 t2 t3 t4 : HtmlTable, dataTables doc = [t1, t2, t3, t4] →
        ∃ fs', parse_data_mtl fs dir doc = Except.ok fs' ∧
          fs'.files (processedPath dir "mtl_ciusss.csv") =
            some (FileContent.csv (normTable t1)) ∧
          fs'.files (processedPath dir "mtl_borough.csv") =
            some (FileContent.csv (normTable t2)) ∧
          fs'.files (processedPath dir "mtl_ages.csv") =
            some (FileContent.csv (normTable t3)) ∧
          fs'.files (processedPath dir "mtl_gender.csv") =
            some (FileContent.csv (normTable t4))) ∧
      ((dataTables doc).length ≠ 4 →
        parse_data_mtl fs dir doc = Except.error
          ("data_mtl.html changed! We found " ++
            toString (dataTables doc).length ++ " data tables rather than " ++
            toString nb_tables ++ ".")) := by
  intro fs dir doc
  constructor
  · intro t1 t2 t3 t4 h
    obtain ⟨g1, g2, g3, g4⟩ := writeTables4_files fs dir t1 t2 t3 t4
    exact ⟨_, parse_data_mtl_ok fs dir doc t1 t2 t3 t4 h, g1, g2, g3, g4⟩
  · intro h
    unfold parse_data_mtl
    simp only [nb_tables]
    rw [if_pos h]

/-- A document made of four plain qualifying data tables. -/
def docEx4 : List HtmlTable := [dtEx, dtEx, dtEx, dtEx]

/-- A document made of three qualifying data tables. -/
def docEx3 : List HtmlTable := [dtEx, dtEx, dtEx]

/-- Witness for C1: a 4-table document is written out, a 3-table document
raises before writing. -/
theorem parse_data_mtl_schema_gate_wit :
    dataTables docEx4 = [dtEx, dtEx, dtEx, dtEx] ∧
    (∃ fs', parse_data_mtl emptyFS "data" docEx4 = Except.ok fs' ∧
      fs'.files (processedPath "data" "mtl_ciusss.csv") =
        some (FileContent.csv (normTable dtEx)) ∧
      fs'.files (processedPath "data" "mtl_borough.csv") =
        some (FileContent.csv (normTable dtEx)) ∧
      fs'.files (processedPath "data" "mtl_ages.csv") =
        some (FileContent.csv (normTable dtEx)) ∧
      fs'.files (processedPath "data" "mtl_gender.csv") =
        some (FileContent.csv (normTable dtEx))) ∧
    (dataTables docEx3).length ≠ 4 ∧
    parse_data_mtl emptyFS "data" docEx3 = Except.error
      ("data_mtl.html changed! We found " ++
        toString (dataTables docEx3).length ++ " data tables rather than " ++
        toString nb_tables ++ ".") :=
  ⟨rfl,
    (parse_data_mtl_schema_gate emptyFS "data" docEx4).1 dtEx dtEx dtEx dtEx rfl,
    by decide,
    (parse_data_mtl_schema_gate emptyFS "data" docEx3).2 (by decide)⟩

/-! ### C7: the extractor writes directly, bypassing the store guard -/

/-- A store whose processed mtl_ciusss.csv is 100 bytes, larger than
anything the tiny counterexample document produces. -/
def c7fs : FS :=
  { files := fun p =>
      if p = processedPath "data" "mtl_ciusss.csv"
      then some (FileContent.raw (List.replicate 100 65)) else none,
    backups := [] }

/-- Counterexample to claim C7 as stated: the existing processed file is
strictly larger than the new csv payload, so the Versioned Store's
shrinking-payload guard would refuse the write with StaleOrSuspiciousWrite,
yet extraction succeeds and the file is overwritten with the smaller
content -- the write loop of parse_data_mtl calls backup and open/write
directly and never goes through save_df. -/
theorem parse_writes_bypass_store_cex :
    contentSize (FileContent.raw (List.replicate 100 65)) >
      contentSize (FileContent.csv (normTable dtEx)) ∧
    (parse_data_mtl c7fs "data" docEx4).toOption.map
        (fun fs => fs.files (processedPath "data" "mtl_ciusss.csv")) =
      some (some (FileContent.csv (normTable dtEx))) := by
  exact ⟨by decide, rfl⟩

/-- Amended claim C7.  For each retained table, in document order, the
extractor backs up any existing file at the schema filename and then
overwrites it directly with the normalized rows, unconditionally: no size
comparison guards the write (the hypotheses place no constraint on the
prior contents), so a StaleOrSuspiciousWrite cannot occur for processed
files and every one of the four files is written. -/
theorem parse_data_mtl_backup_then_overwrite :
    ∀ (fs : FS) (dir : String) (doc : List HtmlTable)
      (t1 t2 t3 t4 : HtmlTable),
      dataTables doc = [t1, t2, t3, t4] →
      ∃ fs', parse_data_mtl fs dir doc = Except.ok fs' ∧
        (∀ c, fs.files (processedPath dir "mtl_ciusss.csv") = some c →
          (processedPath dir "mtl_ciusss.csv", c) ∈ fs'.backups) ∧
        (∀ c, fs.files (processedPath dir "mtl_borough.csv") = some c →
          (processedPath dir "mtl_borough.csv", c) ∈ fs'.backups) ∧
        (∀ c, fs.files (processedPath dir "mtl_ages.csv") = some c →
          (processedPath dir "mtl_ages.csv", c) ∈ fs'.backups) ∧
        (∀ c, fs.files (processedPath dir "mtl_gender.csv") = some c →
          (processedPath dir "mtl_gender.csv", c) ∈ fs'.backups) ∧
        fs'.files (processedPath dir "mtl_ciusss.csv") =
          some (FileContent.csv (normTable t1)) ∧
        fs'.files (processedPath dir "mtl_borough.csv") =
          some (FileContent.csv (normTable t2)) ∧
        fs'.files (processedPath dir "mtl_ages.csv") =
          some (FileContent.csv (normTable t3)) ∧
        fs'.files (processedPath dir "mtl_gender.csv") =
          some (FileContent.csv (normTable t4)) := by
  intro fs dir doc t1 t2 t3 t4 h
  have h21 : processedPath dir "mtl_borough.csv" ≠ processedPath dir "mtl_ciusss.csv" :=
    processedPath_ne dir (by decide)
  have h31 : processedPath dir "mtl_ages.csv" ≠ processedPath dir "mtl_ciusss.csv" :=
    processedPath_ne dir (by decide)
  have h32 : processedPath dir "mtl_ages.csv" ≠ processedPath dir "mtl_borough.csv" :=
    processedPath_ne dir (by decide)
  have h41 : processedPath dir "mtl_gender.csv" ≠ processedPath dir "mtl_ciusss.csv" :=
    processedPath_ne dir (by decide)
  have h42 : processedPath dir "mtl_gender.csv" ≠ processedPath dir "mtl_borough.csv" :=
    processedPath_ne dir (by decide)
  have h43 : processedPath dir "mtl_gender.csv" ≠ processedPath dir "mtl_ages.csv" :=
    processedPath_ne dir (by decide)
  obtain ⟨g1, g2, g3, g4⟩ := writeTables4_files fs dir t1 t2 t3 t4
  refine ⟨_, parse_data_mtl_ok fs dir doc t1 t2 t3 t4 h,
    ?_, ?_, ?_, ?_, g1, g2, g3, g4⟩
  · intro c hc
    show (processedPath dir "mtl_ciusss.csv", c) ∈ (writeTables
      (fsWrite (backup fs (processedPath dir "mtl_ciusss.csv"))
        (processedPath dir "mtl_ciusss.csv") (FileContent.csv (normTable t1)))
      dir [("mtl_borough.csv", t2), ("mtl_ages.csv", t3), ("mtl_gender.csv", t4)]).backups
    refine writeTables_backups_mono _ _ dir ?_
    rw [fsWrite_backups]
    exact backup_backups_self fs _ hc
  · intro c hc
    show (processedPath dir "mtl_borough.csv", c) ∈ (writeTables
      (fsWrite (backup
        (fsWrite (backup fs (processedPath dir "mtl_ciusss.csv"))
          (processedPath dir "mtl_ciusss.csv") (FileContent.csv (normTable t1)))
        (processedPath dir "mtl_borough.csv"))
        (processedPath dir "mtl_borough.csv") (FileContent.csv (normTable t2)))
      dir [("mtl_ages.csv", t3), ("mtl_gender.csv", t4)]).backups
    refine writeTables_backups_mono _ _ dir ?_
    rw [fsWrite_backups]
    refine backup_backups_self _ _ ?_
    rw [fsWrite_files, if_neg h21, backup_files]
    exact hc
  · intro c hc
    show (processedPath dir "mtl_ages.csv", c) ∈ (writeTables
      (fsWrite (backup
        (fsWrite (backup
          (fsWrite (backup fs (processedPath dir "mtl_ciusss.csv"))
            (processedPath dir "mtl_ciusss.csv") (FileContent.csv (normTable t1)))
          (processedPath dir "mtl_borough.csv"))
          (processedPath dir "mtl_borough.csv") (FileContent.csv (normTable t2)))
        (processedPath dir "mtl_ages.csv"))
        (processedPath dir "mtl_ages.csv") (FileContent.csv (normTable t3)))
      dir [("mtl_gender.csv", t4)]).backups
    refine writeTables_backups_mono _ _ dir ?_
    rw [fsWrite_backups]
    refine backup_backups_self _ _ ?_
    rw [fsWrite_files, if_neg h32, backup_files,
      fsWrite_files, if_neg h31, backup_files]
    exact hc
  · intro c hc
    show (processedPath dir "mtl_gender.csv", c) ∈ (writeTables
      (fsWrite (backup
        (fsWrite (backup
          (fsWrite (backup
            (fsWrite (backup fs (processedPath dir "mtl_ciusss.csv"))
              (processedPath dir "mtl_ciusss.csv") (FileContent.csv (normTable t1)))
            (processedPath dir "mtl_borough.csv"))
            (processedPath dir "mtl_borough.csv") (FileContent.csv (normTable t2)))
          (processedPath dir "mtl_ages.csv"))
          (processedPath dir "mtl_ages.csv") (FileContent.csv (normTable t3)))
        (processedPath dir "mtl_gender.csv"))
        (processedPath dir "mtl_gender.csv") (FileContent.csv (normTable t4)))
      dir []).backups
    refine writeTables_backups_mono _ _ dir ?_
    rw [fsWrite_backups]
    refine backup_backups_self _ _ ?_
    rw [fsWrite_files, if_neg h43, backup_files,
      fsWrite_files, if_neg h42, backup_files,
      fsWrite_files, if_neg h41, backup_files]
    exact hc

/-- A store holding an old processed mtl_borough.csv, used to witness the
amended C7. -/
def c7wfs : FS :=
  { files := fun p =>
      if p = processedPath "data" "mtl_borough.csv"
      then some (FileContent.raw [1, 2, 3]) else none,
    backups := [] }

/-- Witness for the amended C7 at a concrete store and document. -/
theorem parse_data_mtl_backup_then_overwrite_wit :
    dataTables docEx4 = [dtEx, dtEx, dtEx, dtEx] ∧
    ∃ fs', parse_data_mtl c7wfs "data" docEx4 = Except.ok fs' ∧
      (∀ c, c7wfs.files (processedPath "data" "mtl_ciusss.csv") = some c →
        (processedPath "data" "mtl_ciusss.csv", c) ∈ fs'.backups) ∧
      (∀ c, c7wfs.files (processedPath "data" "mtl_borough.csv") = some c →
        (processedPath "data" "mtl_borough.csv", c) ∈ fs'.backups) ∧
      (∀ c, c7wfs.files (processedPath "data" "mtl_ages.csv") = some c →
        (processedPath "data" "mtl_ages.csv", c) ∈ fs'.backups) ∧
      (∀ c, c7wfs.files (processedPath "data" "mtl_gender.csv") = some c →
        (processedPath "data" "mtl_gender.csv", c) ∈ fs'.backups) ∧
      fs'.files (processedPath "data" "mtl_ciusss.csv") =
        some (FileContent.csv (normTable dtEx)) ∧
      fs'.files (processedPath "data" "mtl_borough.csv") =
        some (FileContent.csv (normTable dtEx)) ∧
      fs'.files (processedPath "data" "mtl_ages.csv") =
        some (FileContent.csv (normTable dtEx)) ∧
      fs'.files (processedPath "data" "mtl_gender.csv") =
        some (FileContent.csv (normTable dtEx)) :=
  ⟨rfl, parse_data_mtl_backup_then_overwrite c7wfs "data" docEx4
    dtEx dtEx dtEx dtEx rfl⟩

/-! ### C4: a per-source failure aborts the whole run -/

/-- A stub network on which every request succeeds with a one-byte body. -/
def c4stubs : String → Nat → Resp :=
  fun _ _ => { status_code := 200, contentType := none, content := [65] }

/-- A store already holding a 10-byte sources/data_qc.csv, so that saving
the one-byte fetched payload for that source fails the size guard. -/
def c4fs : FS :=
  { files := fun p =>
      if p = sourcesPath "data" "data_qc.csv"
      then some (FileContent.raw (List.replicate 10 66)) else none,
    backups := [] }

/-- The initial lock world: no lock file yet. -/
def c4w : LockWorld := { lockFileExists := false, lockContent := "", holder := none }

/-- Counterexample to claim C4 as stated: the save failure on the second
registry entry (data_qc.csv) is not caught anywhere in main -- the run
aborts with that error, the remaining sources are not fetched and
extraction is never reached, even though the document would have passed the
schema gate (its qualifying-table count is 4). -/
theorem pipeline_aborts_on_source_failure_cex :
    mainRun c4w 7 c4fs "data" false c4stubs docEx4 =
      Except.error
        "data/sources/data_qc.csv is smaller than the cached version we have on disk." ∧
    (dataTables docEx4).length = 4 := by
  exact ⟨rfl, rfl⟩

/-- Amended claim C4.  In a non-local run, an error raised while fetching
or saving any source propagates out of main: the run aborts with that
error, and neither the remaining registry entries nor the extraction stage
is executed.  (The spec's log-and-continue policy does not exist in the
code; there is no exception handler around the per-source loop.) -/
theorem pipeline_source_failure_propagates :
    ∀ (w w1 : LockWorld) (pid : Nat) (fs : FS) (dir : String)
      (stubs : String → Nat → Resp) (doc : List HtmlTable) (e : String),
      lock pid w = Except.ok w1 →
      sourcesLoop fs dir stubs = Except.error e →
      mainRun w pid fs dir false stubs doc = Except.error e := by
  intro w w1 pid fs dir stubs doc e hl hs
  unfold mainRun
  rw [hl, hs]
  rfl

/-- Witness for the amended C4 at the concrete aborting run. -/
theorem pipeline_source_failure_propagates_wit :
    lock 7 c4w = Except.ok
      { lockFileExists := true, lockContent := os_getpid_repr, holder := some 7 } ∧
    sourcesLoop c4fs "data" c4stubs = Except.error
      "data/sources/data_qc.csv is smaller than the cached version we have on disk." ∧
    mainRun c4w 7 c4fs "data" false c4stubs docEx4 = Except.error
      "data/sources/data_qc.csv is smaller than the cached version we have on disk." :=
  ⟨rfl, rfl,
    pipeline_source_failure_propagates c4w
      { lockFileExists := true, lockContent := os_getpid_repr, holder := some 7 }
      7 c4fs "data" c4stubs docEx4
      "data/sources/data_qc.csv is smaller than the cached version we have on disk."
      rfl rfl⟩

end RefreshData
